import Mathlib

set_option autoImplicit false
set_option linter.unusedVariables false

/-
Verification development for the drive-migration tool.

The definitions below are a shallow embedding of the Python sources:
  state_manager.py      (the persistent job ledger, modelled on SQLite tables
                         as association lists keyed by the primary-key column)
  migration_engine.py   (per-principal file loop, folder reconstruction)
  permissions_migrator.py (access-entry translation and application)
  migration_validator.py  (post-hoc reconciliation)
Remote Drive API calls and wall-clock reads are passed in explicitly as
oracle functions / parameters, so every definition is executable.
-/

namespace DriveMigration

/-- Row of the users table (state_manager.py, CREATE TABLE users).
The primary key column source_email is the association-list key. -/
structure UserRecord where
  dest_email : String
  status : String
  files_total : Nat
  files_completed : Nat
  files_failed : Nat
  start_time : Option String
  end_time : Option String
  last_updated : Option String
deriving Repr, DecidableEq

/-- Row of the files table (state_manager.py, CREATE TABLE files).
The primary key column file_id is the association-list key. -/
structure FileRecord where
  source_email : String
  file_name : String
  mime_type : String
  size : Nat
  status : String
  dest_file_id : Option String
  error_message : Option String
  attempt_count : Nat
  last_attempt : Option String
  completed_time : Option String
deriving Repr, DecidableEq

/-- The SQLite database held by StateManager: users and files tables.
(The migration_runs table is not touched by any claim.) -/
structure Ledger where
  users : List (String × UserRecord)
  files : List (String × FileRecord)
deriving Repr, DecidableEq

/-- SELECT by primary key: the first row whose key matches. -/
def alookup {β : Type} (l : List (String × β)) (k : String) : Option β :=
  (l.find? (fun p => p.1 == k)).map (fun p => p.2)

/-- SQL UPDATE ... WHERE key = k: rewrite the value of every row whose key
matches, leaving keys and all other rows unchanged. -/
def updateAt {β : Type} (l : List (String × β)) (k : String) (u : β → β) :
    List (String × β) :=
  l.map (fun p => (p.1, if p.1 == k then u p.2 else p.2))

/-- StateManager.add_user: INSERT OR REPLACE INTO users.  SQLite deletes any
conflicting row and inserts the new one, so columns absent from the column
list fall back to their defaults (counters 0, end_time NULL). -/
def add_user (L : Ledger) (source_email dest_email now : String) : Ledger :=
  { L with users := L.users.filter (fun p => p.1 != source_email) ++
      [(source_email,
        { dest_email := dest_email
          status := "pending"
          files_total := 0
          files_completed := 0
          files_failed := 0
          start_time := some now
          end_time := none
          last_updated := some now })] }

/-- StateManager.update_user_status. -/
def update_user_status (L : Ledger) (source_email status now : String) : Ledger :=
  { L with
    users :=
      updateAt L.users source_email
        (fun u => { u with status := status, last_updated := some now }) }

/-- StateManager.mark_user_completed. -/
def mark_user_completed (L : Ledger) (source_email now : String) : Ledger :=
  { L with
    users :=
      updateAt L.users source_email
        (fun u => { u with status := "completed", end_time := some now,
                           last_updated := some now }) }

/-- StateManager.is_user_completed. -/
def is_user_completed (L : Ledger) (source_email : String) : Bool :=
  match alookup L.users source_email with
  | some u => u.status == "completed"
  | none => false

/-- StateManager.add_file: INSERT OR IGNORE INTO files (a row whose key is
already present is left untouched). -/
def add_file (L : Ledger) (file_id source_email file_name mime_type : String)
    (size : Nat) : Ledger :=
  if (alookup L.files file_id).isSome then L
  else { L with files := L.files ++
      [(file_id,
        { source_email := source_email
          file_name := file_name
          mime_type := mime_type
          size := size
          status := "pending"
          dest_file_id := none
          error_message := none
          attempt_count := 0
          last_attempt := none
          completed_time := none })] }

/-- StateManager.mark_file_completed: UPDATE files SET status, dest_file_id,
completed_time, last_attempt WHERE file_id = ?, then bump the owning user
row with files_completed + 1. -/
def mark_file_completed (L : Ledger) (file_id source_email : String)
    (dest_file_id : Option String) (now : String) : Ledger :=
  { users :=
      updateAt L.users source_email
        (fun u => { u with files_completed := u.files_completed + 1,
                           last_updated := some now })
    files :=
      updateAt L.files file_id
        (fun f => { f with status := "completed", dest_file_id := dest_file_id,
                           completed_time := some now, last_attempt := some now }) }

/-- StateManager.mark_file_failed: UPDATE files SET status = "failed",
error_message, attempt_count = attempt_count + 1, last_attempt WHERE
file_id = ?, then bump the owning user row with files_failed + 1. -/
def mark_file_failed (L : Ledger) (file_id source_email error now : String) :
    Ledger :=
  { users :=
      updateAt L.users source_email
        (fun u => { u with files_failed := u.files_failed + 1,
                           last_updated := some now })
    files :=
      updateAt L.files file_id
        (fun f => { f with status := "failed", error_message := some error,
                           attempt_count := f.attempt_count + 1,
                           last_attempt := some now }) }

/-- StateManager.is_file_completed. -/
def is_file_completed (L : Ledger) (file_id : String) : Bool :=
  match alookup L.files file_id with
  | some f => f.status == "completed"
  | none => false

/-- The WHERE clause of StateManager.reset_failed_files:
status = "failed" AND attempt_count < max_attempts. -/
def resetEligible (max_attempts : Nat) (f : FileRecord) : Bool :=
  f.status == "failed" && decide (f.attempt_count < max_attempts)

/-- StateManager.reset_failed_files: UPDATE files SET status = "pending",
error_message = NULL WHERE status = "failed" AND attempt_count < ?; the
returned Nat is cursor.rowcount, the number of rows the UPDATE touched. -/
def reset_failed_files (L : Ledger) (max_attempts : Nat) : Nat × Ledger :=
  ((L.files.filter (fun p => resetEligible max_attempts p.2)).length,
   { L with files := L.files.map (fun p =>
      (p.1, if resetEligible max_attempts p.2
            then { p.2 with status := "pending", error_message := none }
            else p.2)) })

/-! Per-principal file loop of MigrationEngine.migrate_user
    (migration_engine.py, STEP 4, lines 140-183). -/

/-- Observable effects of one loop iteration: a remote transfer attempt for a
file, and the two ledger mark calls. -/
inductive Event where
  | transferAttempt (file_id : String)
  | markCompleted (file_id : String)
  | markFailed (file_id : String)
deriving Repr, DecidableEq

/-- The file id an event is about. -/
def Event.fileId : Event → String
  | .transferAttempt f => f
  | .markCompleted f => f
  | .markFailed f => f

deriving instance DecidableEq for Except

/-- One source file together with the outcome the remote system would give
its transfer: ok dest_file_id when migrate_file_with_permissions would
succeed, error message when it would fail. -/
structure FileSim where
  id : String
  outcome : Except String (Option String)
deriving Repr, DecidableEq

/-- The per-run counters of user_result that the loop updates. -/
structure Tally where
  files_migrated : Nat
  files_failed : Nat
  files_skipped : Nat
deriving Repr, DecidableEq

/-- One iteration of the migrate_user file loop: skip when the ledger says
the file is completed; otherwise attempt the transfer and record the
outcome.  On success the engine calls mark_file_completed with only two
arguments, so dest_file_id defaults to NULL (line 162). -/
def processFile (source_email now : String)
    (acc : Ledger × Tally × List Event) (f : FileSim) :
    Ledger × Tally × List Event :=
  if is_file_completed acc.1 f.id then
    (acc.1, { acc.2.1 with files_skipped := acc.2.1.files_skipped + 1 },
     acc.2.2)
  else
    match f.outcome with
    | .ok _ =>
        (mark_file_completed acc.1 f.id source_email none now,
         { acc.2.1 with files_migrated := acc.2.1.files_migrated + 1 },
         acc.2.2 ++ [.transferAttempt f.id, .markCompleted f.id])
    | .error e =>
        (mark_file_failed acc.1 f.id source_email e now,
         { acc.2.1 with files_failed := acc.2.1.files_failed + 1 },
         acc.2.2 ++ [.transferAttempt f.id, .markFailed f.id])

/-- The whole file loop of migrate_user for one principal. -/
def migrateLoop (source_email now : String) (L : Ledger)
    (files : List FileSim) : Ledger × Tally × List Event :=
  files.foldl (processFile source_email now) (L, ⟨0, 0, 0⟩, [])

/-- Ledger-visible steps the program performs across runs and restarts:
a per-principal file loop (migrate_user STEP 4), the bounded retry reset
(main.py resume mode), and registering a principal (main.py run setup). -/
inductive SysStep where
  | runUser (source_email now : String) (files : List FileSim)
  | resetFailed (max_attempts : Nat)
  | addUserStep (source_email dest_email now : String)
deriving Repr

/-- Apply one system step, threading the global event log. -/
def applySys (acc : Ledger × List Event) : SysStep → Ledger × List Event
  | .runUser s n fs =>
      let r := fs.foldl (processFile s n) (acc.1, ⟨0, 0, 0⟩, acc.2)
      (r.1, r.2.2)
  | .resetFailed m => ((reset_failed_files acc.1 m).2, acc.2)
  | .addUserStep s d n => (add_user acc.1 s d n, acc.2)

/-- A whole history: any number of runs, resets and restarts, from an
initial ledger, with an initially empty event log. -/
def execTrace (L : Ledger) (steps : List SysStep) : Ledger × List Event :=
  steps.foldl applySys (L, [])

/-- How often markObjectCompleted was observed for a given file id. -/
def countMark (fid : String) (evs : List Event) : Nat :=
  (evs.filter (fun e => e == Event.markCompleted fid)).length

/-! Folder hierarchy reconstruction
    (migration_engine.py, build_folder_structure lines 679-714; the
    _with_permissions variant lines 355-401 runs the identical sort /
    create / mapping loop, plus permission side effects that do not touch
    the mapping). -/

/-- Folder metadata as listed from the source drive: Drive API parents is
the list of direct parent ids (almost always a single element). -/
structure FolderInfo where
  id : String
  name : String
  parents : List String
deriving Repr, DecidableEq

/-- Insert a folder into an accumulator sorted by number of parent ids,
after every element whose key is less than or equal: folding this over the
input is a stable sort, which is exactly what Python sorted with
key=len(parents) computes. -/
def insertByParents (x : FolderInfo) : List FolderInfo → List FolderInfo
  | [] => [x]
  | y :: ys =>
      if y.parents.length ≤ x.parents.length then y :: insertByParents x ys
      else x :: y :: ys

/-- sorted(folders, key=lambda x: len(x.get("parents", []))). -/
def sortFoldersByParentCount (fs : List FolderInfo) : List FolderInfo :=
  fs.foldl (fun acc f => insertByParents f acc) []

/-- One create_folder call issued against the destination, recording the
source parent reference and the destination parent that was passed
(none when the parent had no entry in the mapping yet). -/
structure CreateCall where
  folder_id : String
  name : String
  source_parent : Option String
  dest_parent : Option String
deriving Repr, DecidableEq

/-- MigrationEngine build_folder_structure: sort by number of parent ids,
then create each folder, passing the mapped destination parent when the
first source parent is already in the mapping, and record the new id.
create is the remote create_folder call (none models a failed creation). -/
def build_folder_structure (create : String → Option String → Option String)
    (folders : List FolderInfo) :
    List (String × String) × List CreateCall :=
  (sortFoldersByParentCount folders).foldl
    (fun (acc : List (String × String) × List CreateCall) folder =>
      let dest_parent_id : Option String :=
        match folder.parents.head? with
        | some p => alookup acc.1 p
        | none => none
      let call : CreateCall :=
        ⟨folder.id, folder.name, folder.parents.head?, dest_parent_id⟩
      match create folder.name dest_parent_id with
      | some did => (acc.1 ++ [(folder.id, did)], acc.2 ++ [call])
      | none => (acc.1, acc.2 ++ [call]))
    ([], [])

/-! Access-entry translation and application
    (permissions_migrator.py, PermissionsMigrator). -/

/-- One source access entry as returned by permissions().list: every field is
optional because the Python code reads them with .get. -/
structure Permission where
  type : Option String
  role : Option String
  emailAddress : Option String
  domain : Option String
deriving Repr, DecidableEq

/-- Split a character list at the first occurrence of c: none when c does
not occur. -/
def splitCharsAtFirst (c : Char) : List Char → Option (List Char × List Char)
  | [] => none
  | x :: xs =>
      if x = c then some ([], xs)
      else
        match splitCharsAtFirst c xs with
        | some (l, r) => some (x :: l, r)
        | none => none

/-- Result of splitting an email at the FIRST at-sign, like Python
email.split("@", 1): none when the string has no at-sign (or is empty). -/
def splitEmailAtFirst (email : String) : Option (String × String) :=
  match splitCharsAtFirst '@' email.toList with
  | some (l, r) => some (⟨l⟩, ⟨r⟩)
  | none => none

/-- PermissionsMigrator _map_email_to_dest_domain: keep the local part,
rewrite the domain via the first matching source-domain entry of the
domain mapping; identities without an at-sign and unmapped domains pass
through unchanged. -/
def map_email_to_dest_domain (domain_mapping : List (String × String))
    (email : String) : String :=
  match splitEmailAtFirst email with
  | none => email
  | some (local_part, domain) =>
      match domain_mapping.find? (fun p => p.1 == domain) with
      | some p => local_part ++ "@" ++ p.2
      | none => email

/-- The email migrate_permissions passes to _create_permission: mapped only
when the entry carries a non-empty email and the domain mapping is
non-empty (Python: if email and self.domain_mapping). -/
def mappedEmailFor (domain_mapping : List (String × String))
    (p : Permission) : Option String :=
  match p.emailAddress with
  | some e =>
      if e != "" && !domain_mapping.isEmpty
      then some (map_email_to_dest_domain domain_mapping e)
      else some e
  | none => none

/-- The argument tuple of one _create_permission invocation (the
create-permission call issued against the destination file). -/
structure CreateRequest where
  perm_type : Option String
  role : Option String
  emailAddress : Option String
  domain : Option String
deriving Repr, DecidableEq

/-- The request built for one non-owner entry: type and role are passed
through, the email is domain-mapped. -/
def requestFor (domain_mapping : List (String × String)) (p : Permission) :
    CreateRequest :=
  ⟨p.type, p.role, mappedEmailFor domain_mapping p, p.domain⟩

/-- What the remote permissions().create().execute() call does: succeed,
raise an HttpError with a status code, or raise some other exception. -/
inductive RemoteResult where
  | ok
  | httpError (status : Nat) (message : String)
  | otherError (message : String)
deriving Repr, DecidableEq

/-- Whether sub occurs inside s (Python: sub in s), via splitOn. -/
def substrOccurs (s sub : String) : Bool :=
  (s.splitOn sub).length != 1

/-- Python None prints as the string None inside an f-string. -/
def optText : Option String → String
  | some s => s
  | none => "None"

/-- PermissionsMigrator _create_permission, lines 107-163: issue the create
call and map failures to the error taxonomy (404 grantee-not-found, 403
permission denied, 400 notify-people / bad request, anything else passes
the message through).  Returns (success, error_message). -/
def create_permission (remote : CreateRequest → RemoteResult)
    (req : CreateRequest) : Bool × Option String :=
  match remote req with
  | .ok => (true, none)
  | .httpError st msg =>
      if st == 404 then (false, some "User not found in destination domain")
      else if st == 403 then (false, some "Permission denied")
      else if st == 400 then
        (if substrOccurs msg.toLower "notify people" ||
            substrOccurs msg "no Google account" then
          (false, some ("User " ++ optText req.emailAddress ++
            " does not have a Google account in destination domain"))
        else (false, some ("Bad request - " ++ msg)))
      else (false, some msg)
  | .otherError msg => (false, some msg)

/-- One row of the details list migrate_permissions builds. -/
structure PermDetail where
  email : Option String
  role : Option String
  perm_type : Option String
  status : String
  reason : Option String
  error : Option String
deriving Repr, DecidableEq

/-- The result dictionary of migrate_permissions, instrumented with the
list of create-permission calls actually issued. -/
structure PermResult where
  total_permissions : Nat
  migrated : Nat
  skipped : Nat
  failed : Nat
  details : List PermDetail
  calls : List CreateRequest
deriving Repr, DecidableEq

/-- Python:  mapped_email or domain  (falsy email falls back to domain). -/
def pyOr (a b : Option String) : Option String :=
  match a with
  | some s => if s == "" then b else some s
  | none => b

/-- One iteration of the migrate_permissions loop, lines 50-103: owner
entries are skipped without any create call; every other entry is
translated and applied, tallied as migrated or failed by the outcome. -/
def processPermission (remote : CreateRequest → RemoteResult)
    (domain_mapping : List (String × String)) (r : PermResult)
    (permission : Permission) : PermResult :=
  if permission.role == some "owner" then
    { r with
      skipped := r.skipped + 1
      details := r.details ++
        [⟨permission.emailAddress, permission.role, none, "skipped",
          some "Owner permission handled separately", none⟩] }
  else
    let req := requestFor domain_mapping permission
    let res := create_permission remote req
    if res.1 then
      { r with
        migrated := r.migrated + 1
        calls := r.calls ++ [req]
        details := r.details ++
          [⟨pyOr req.emailAddress permission.domain, permission.role,
            permission.type, "success", none, none⟩] }
    else
      { r with
        failed := r.failed + 1
        calls := r.calls ++ [req]
        details := r.details ++
          [⟨pyOr req.emailAddress permission.domain, permission.role,
            permission.type, "failed", none, res.2⟩] }

/-- PermissionsMigrator.migrate_permissions over a source access list. -/
def migrate_permissions (remote : CreateRequest → RemoteResult)
    (domain_mapping : List (String × String))
    (source_permissions : List Permission) : PermResult :=
  source_permissions.foldl (processPermission remote domain_mapping)
    ⟨source_permissions.length, 0, 0, 0, [], []⟩

/-! Per-object transfer, MigrationEngine _migrate_file_with_permissions
    (migration_engine.py lines 403-548). -/

/-- Source file metadata as the engine reads it from file_info. -/
structure FileInfo where
  id : String
  name : String
  mimeType : String
  size : Nat
  owners : List String
  parents : List String
  permissions : List Permission
deriving Repr, DecidableEq

/-- Outcomes of the remote transfer operations for one file: the delegated
files().copy call, download_file, upload_file and transfer_ownership. -/
structure TransferOutcomes where
  copyFile : Except String String
  downloadOk : Bool
  upload : Option String
  transferOwnershipOk : Bool
deriving Repr, DecidableEq

/-- The transfer part of _migrate_file_with_permissions, everything before
the permission-migration block: folders, shortcuts and shared-in files are
skipped as success with no destination id; oversized files fail; native
documents are copied; anything else is downloaded and re-uploaded (an
ownership-transfer failure is only logged).  The error branch carries the
returned error message. -/
def transfer_stage (max_file_size_mb : Nat) (user_email : Option String)
    (folder_mapping : List (String × String)) (oc : TransferOutcomes)
    (fi : FileInfo) : Except String (Option String) :=
  if fi.mimeType == "application/vnd.google-apps.folder" then .ok none
  else if fi.mimeType == "application/vnd.google-apps.shortcut" then .ok none
  else
    let is_owner : Bool :=
      match user_email with
      | some u => if u == "" then false else fi.owners.contains u
      | none => false
    if !is_owner then .ok none
    else if max_file_size_mb * 1024 * 1024 < fi.size then .error "File too large"
    else
      let is_google_doc :=
        "application/vnd.google-apps.".toList.isPrefixOf fi.mimeType.toList
      let dest_parent_id : Option String :=
        match fi.parents.head? with
        | some p => alookup folder_mapping p
        | none => none
      if is_google_doc then
        match oc.copyFile with
        | .ok did => .ok (some did)
        | .error e => .error ("Failed to copy: " ++ e)
      else
        if !oc.downloadOk then .error "Download failed"
        else
          match oc.upload with
          | none => .error "Upload failed"
          | some did => .ok (some did)

/-- The (success, error, dest_file_id, permissions_result) tuple returned by
_migrate_file_with_permissions. -/
structure MigrateFileResult where
  success : Bool
  error : Option String
  dest_file_id : Option String
  perm_result : Option PermResult
deriving Repr, DecidableEq

/-- MigrationEngine _migrate_file_with_permissions: run the transfer, then,
when the file has collaborators (more than one access entry) and a
destination id is known, migrate the permissions; a caught exception or
failed step returns success = false with the error message. -/
def migrate_file_with_permissions (max_file_size_mb : Nat)
    (user_email : Option String) (domain_mapping : List (String × String))
    (folder_mapping : List (String × String)) (oc : TransferOutcomes)
    (permRemote : CreateRequest → RemoteResult) (fi : FileInfo) :
    MigrateFileResult :=
  match transfer_stage max_file_size_mb user_email folder_mapping oc fi with
  | .error e => ⟨false, some e, none, none⟩
  | .ok dest_file_id =>
      ⟨true, none, dest_file_id,
        if 1 < fi.permissions.length && dest_file_id.isSome then
          some (migrate_permissions permRemote domain_mapping fi.permissions)
        else none⟩

/-! Reconciliation validator
    (migration_validator.py, MigrationValidator.validate_migration). -/

/-- The fields of a snapshot file or folder entry the validator reads. -/
structure SFile where
  id : String
  name : String
  mimeType : String
  size : Option Nat
  permissions : List Permission
deriving Repr, DecidableEq

/-- A DriveStructureMapper snapshot as consumed by the validator. -/
structure DriveStructure where
  user_email : String
  files : List SFile
  folders : List SFile
deriving Repr, DecidableEq

/-- Python dict assignment d[k] = v: overwrite in place when the key exists,
otherwise append (dicts preserve first-insertion order). -/
def dictInsert {β : Type} (d : List (String × β)) (k : String) (v : β) :
    List (String × β) :=
  if (d.find? (fun p => p.1 == k)).isSome
  then d.map (fun p => if p.1 == k then (k, v) else p)
  else d ++ [(k, v)]

/-- The dict comprehension keying snapshot entries by display name
(later duplicates overwrite earlier ones). -/
def dictByName (fs : List SFile) : List (String × SFile) :=
  fs.foldl (fun d f => dictInsert d f.name f) []

/-- One issue record appended to the report (heterogeneous Python dict:
absent keys are modelled as none). -/
structure Issue where
  type : String
  category : String
  severity : String
  message : Option String := none
  file : Option String := none
  folder : Option String := none
  source_mime : Option String := none
  dest_mime : Option String := none
  source_id : Option String := none
  source_count : Option Nat := none
  dest_count : Option Nat := none
deriving Repr, DecidableEq

/-- An entry of the file_validation dict (missing entries leave the
found-only keys absent). -/
structure FileValidationEntry where
  status : String
  source_id : String
  dest_id : Option String := none
  mime_type_match : Option Bool := none
  size_match : Option Bool := none
deriving Repr, DecidableEq

/-- An entry of the folder_validation dict. -/
structure FolderValidationEntry where
  status : String
  source_id : String
  dest_id : Option String := none
deriving Repr, DecidableEq

/-- An entry of the permission_validation dict. -/
structure PermValidationEntry where
  source_permissions : Nat
  dest_permissions : Nat
  matched : Bool
deriving Repr, DecidableEq

/-- The statistics block of the validation report. -/
structure Statistics where
  source_files : Nat
  dest_files : Nat
  source_folders : Nat
  dest_folders : Nat
  files_matched : Nat
  files_missing : Nat
  permissions_matched : Nat
  permissions_missing : Nat
deriving Repr, DecidableEq

/-- The validation report returned by validate_migration. -/
structure ValidationReport where
  timestamp : String
  source_user : String
  dest_user : String
  overall_status : String
  file_validation : List (String × FileValidationEntry)
  folder_validation : List (String × FolderValidationEntry)
  permission_validation : List (String × PermValidationEntry)
  statistics : Statistics
  issues : List Issue
deriving Repr, DecidableEq

/-- MigrationValidator _validate_counts: warn on file and folder count
mismatches. -/
def validateCounts (stats : Statistics) : List Issue :=
  (if stats.source_files != stats.dest_files then
    [{ type := "count_mismatch", category := "files", severity := "warning",
       message := some ("File count mismatch: " ++
         toString stats.source_files ++ " source vs " ++
         toString stats.dest_files ++ " destination") }]
   else []) ++
  (if stats.source_folders != stats.dest_folders then
    [{ type := "count_mismatch", category := "folders", severity := "warning",
       message := some ("Folder count mismatch: " ++
         toString stats.source_folders ++ " source vs " ++
         toString stats.dest_folders ++ " destination") }]
   else [])

/-- MigrationValidator _is_acceptable_conversion: the fixed table of
native-document to exported-format pairs. -/
def is_acceptable_conversion (source_mime dest_mime : String) : Bool :=
  let table : List (String × List String) :=
    [("application/vnd.google-apps.document",
      ["application/vnd.openxmlformats-officedocument.wordprocessingml.document",
       "application/vnd.google-apps.document"]),
     ("application/vnd.google-apps.spreadsheet",
      ["application/vnd.openxmlformats-officedocument.spreadsheetml.sheet",
       "application/vnd.google-apps.spreadsheet"]),
     ("application/vnd.google-apps.presentation",
      ["application/vnd.openxmlformats-officedocument.presentationml.presentation",
       "application/vnd.google-apps.presentation"])]
  match alookup table source_mime with
  | some l => l.contains dest_mime
  | none => false

/-- One iteration of _validate_files over the source files, threading the
file_validation dict, the statistics and the issues list. -/
def validateFilesStep (destByName : List (String × SFile))
    (acc : List (String × FileValidationEntry) × Statistics × List Issue)
    (source_file : SFile) :
    List (String × FileValidationEntry) × Statistics × List Issue :=
  match alookup destByName source_file.name with
  | some dest_file =>
      let entry : FileValidationEntry :=
        { status := "found"
          source_id := source_file.id
          dest_id := some dest_file.id
          mime_type_match := some (source_file.mimeType == dest_file.mimeType)
          size_match := some (source_file.size == dest_file.size) }
      let issues :=
        if source_file.mimeType != dest_file.mimeType &&
           !is_acceptable_conversion source_file.mimeType dest_file.mimeType
        then acc.2.2 ++
          [{ type := "mime_type_mismatch", category := "file",
             severity := "warning", file := some source_file.name,
             source_mime := some source_file.mimeType,
             dest_mime := some dest_file.mimeType }]
        else acc.2.2
      (dictInsert acc.1 source_file.name entry,
       { acc.2.1 with files_matched := acc.2.1.files_matched + 1 },
       issues)
  | none =>
      (dictInsert acc.1 source_file.name
        { status := "missing", source_id := source_file.id },
       { acc.2.1 with files_missing := acc.2.1.files_missing + 1 },
       acc.2.2 ++
        [{ type := "file_missing", category := "file", severity := "error",
           file := some source_file.name,
           source_id := some source_file.id }])

/-- One iteration of _validate_folders over the by-name source folder dict. -/
def validateFoldersStep (destFoldersByName : List (String × SFile))
    (acc : List (String × FolderValidationEntry) × List Issue)
    (p : String × SFile) :
    List (String × FolderValidationEntry) × List Issue :=
  match alookup destFoldersByName p.1 with
  | some dest_folder =>
      (dictInsert acc.1 p.1
        { status := "found", source_id := p.2.id,
          dest_id := some dest_folder.id },
       acc.2)
  | none =>
      (dictInsert acc.1 p.1 { status := "missing", source_id := p.2.id },
       acc.2 ++
        [{ type := "folder_missing", category := "folder", severity := "error",
           folder := some p.1, source_id := some p.2.id }])

/-- Number of access entries whose role is not owner (Python counts entries
with p.get("role") != "owner", so an absent role counts). -/
def nonOwnerCount (ps : List Permission) : Nat :=
  (ps.filter (fun p => !(p.role == some "owner"))).length

/-- One iteration of _validate_permissions over the source files that have
more than one access entry. -/
def validatePermsStep (destByName : List (String × SFile))
    (acc : List (String × PermValidationEntry) × Statistics × List Issue)
    (source_file : SFile) :
    List (String × PermValidationEntry) × Statistics × List Issue :=
  let source_perm_count := nonOwnerCount source_file.permissions
  match alookup destByName source_file.name with
  | some dest_file =>
      let dest_perm_count := nonOwnerCount dest_file.permissions
      let pv := dictInsert acc.1 source_file.name
        ⟨source_perm_count, dest_perm_count,
         source_perm_count == dest_perm_count⟩
      if source_perm_count == dest_perm_count then
        (pv,
         { acc.2.1 with
             permissions_matched := acc.2.1.permissions_matched + 1 },
         acc.2.2)
      else
        (pv,
         { acc.2.1 with
             permissions_missing := acc.2.1.permissions_missing + 1 },
         acc.2.2 ++
          [{ type := "permission_mismatch", category := "permissions",
             severity := "warning", file := some source_file.name,
             source_count := some source_perm_count,
             dest_count := some dest_perm_count }])
  | none => acc

/-- MigrationValidator.validate_migration (lines 19-78): build the report
by validating counts, individual files, folder structure and permissions,
then derive the overall status.  now is the datetime.now().isoformat()
value the Python code stamps into the report; file_mapping is accepted and,
as in the source, never used by the comparison logic. -/
def validate_migration (now : String) (source dest : DriveStructure)
    (file_mapping : List (String × String)) : ValidationReport :=
  let stats0 : Statistics :=
    { source_files := source.files.length
      dest_files := dest.files.length
      source_folders := source.folders.length
      dest_folders := dest.folders.length
      files_matched := 0
      files_missing := 0
      permissions_matched := 0
      permissions_missing := 0 }
  let issues0 := validateCounts stats0
  let destFilesByName := dictByName dest.files
  let r1 := source.files.foldl (validateFilesStep destFilesByName)
    ([], stats0, issues0)
  let destFoldersByName := dictByName dest.folders
  let r2 := (dictByName source.folders).foldl
    (validateFoldersStep destFoldersByName) ([], r1.2.2)
  let withPerms := source.files.filter (fun f => 1 < f.permissions.length)
  let r3 := withPerms.foldl (validatePermsStep destFilesByName)
    ([], r1.2.1, r2.2)
  let stats := r3.2.1
  let issues := r3.2.2
  let overall :=
    if stats.files_missing == 0 && issues.isEmpty then "success"
    else if 0 < stats.files_matched then "partial"
    else "failed"
  { timestamp := now
    source_user := source.user_email
    dest_user := dest.user_email
    overall_status := overall
    file_validation := r1.1
    folder_validation := r2.1
    permission_validation := r3.1
    statistics := stats
    issues := issues }

/-- The report with its wall-clock stamp erased. -/
def eraseTimestamp (r : ValidationReport) : ValidationReport :=
  { r with timestamp := "" }

/-! The full alphabet of StateManager write operations, for stating
    whole-history properties of the ledger. -/

/-- One StateManager write operation. -/
inductive LedgerOp where
  | addUserOp (source_email dest_email now : String)
  | updateUserStatusOp (source_email status now : String)
  | markUserCompletedOp (source_email now : String)
  | addFileOp (file_id source_email file_name mime_type : String) (size : Nat)
  | markFileCompletedOp (file_id source_email : String)
      (dest_file_id : Option String) (now : String)
  | markFileFailedOp (file_id source_email error now : String)
  | resetFailedOp (max_attempts : Nat)
deriving Repr

/-- Apply one StateManager operation to the database. -/
def applyOp (L : Ledger) : LedgerOp → Ledger
  | .addUserOp s d n => add_user L s d n
  | .updateUserStatusOp s st n => update_user_status L s st n
  | .markUserCompletedOp s n => mark_user_completed L s n
  | .addFileOp fid s fname mt sz => add_file L fid s fname mt sz
  | .markFileCompletedOp fid s dst n => mark_file_completed L fid s dst n
  | .markFileFailedOp fid s e n => mark_file_failed L fid s e n
  | .resetFailedOp m => (reset_failed_files L m).2

/-! Concrete fixtures used in counterexamples and witnesses. -/

/-- A user row registered by main.py before migration starts. -/
def aliceUser : UserRecord :=
  { dest_email := "alice@dst", status := "pending", files_total := 0,
    files_completed := 0, files_failed := 0, start_time := some "t0",
    end_time := none, last_updated := some "t0" }

/-- A principal whose migration finished: completed with counters. -/
def c1_user : UserRecord :=
  { dest_email := "alice@dst", status := "completed", files_total := 5,
    files_completed := 5, files_failed := 0, start_time := some "t0",
    end_time := some "t1", last_updated := some "t1" }

def c1_ledger : Ledger := { users := [("alice@src", c1_user)], files := [] }

/-- An ObjectRecord in terminal completed state. -/
def c2_file : FileRecord :=
  { source_email := "alice@src", file_name := "doc.pdf",
    mime_type := "application/pdf", size := 4, status := "completed",
    dest_file_id := some "d1", error_message := none, attempt_count := 1,
    last_attempt := some "t0", completed_time := some "t0" }

def c2_ledger : Ledger :=
  { users := [("alice@src", aliceUser)], files := [("f1", c2_file)] }

/-- Two runs separated by a retry reset and a process restart that
re-registers the principal: the completed object shows up in both runs. -/
def c2_steps : List SysStep :=
  [.runUser "alice@src" "t1" [⟨"f1", .ok (some "dX")⟩],
   .resetFailed 3,
   .addUserStep "alice@src" "alice@dst" "t2",
   .runUser "alice@src" "t3" [⟨"f1", .error "boom"⟩, ⟨"f2", .ok (some "d2")⟩]]

/-- A two-level folder tree, child listed before its parent; every folder
has exactly one parent id, as the Drive API returns. -/
def c3_child : FolderInfo := ⟨"fC", "Sub", ["fP"]⟩

def c3_parent : FolderInfo := ⟨"fP", "Top", ["rootX"]⟩

/-- A destination where every folder creation succeeds. -/
def c3_create : String → Option String → Option String :=
  fun n _ => some ("d_" ++ n)

def c4_src : DriveStructure := ⟨"alice@src", [], []⟩

def c4_dst : DriveStructure := ⟨"alice@dst", [], []⟩

/-- Failed rows below and at the retry threshold, plus untouched rows. -/
def c5_failed2 : FileRecord :=
  { source_email := "alice@src", file_name := "a", mime_type := "application/pdf",
    size := 1, status := "failed", dest_file_id := none,
    error_message := some "e2", attempt_count := 2, last_attempt := some "t0",
    completed_time := none }

def c5_failed3 : FileRecord :=
  { c5_failed2 with file_name := "b", error_message := some "e3",
                    attempt_count := 3 }

def c5_pending : FileRecord :=
  { c5_failed2 with file_name := "c", status := "pending",
                    error_message := none, attempt_count := 0 }

def c5_ledger : Ledger :=
  { users := [("alice@src", aliceUser)],
    files := [("g1", c5_failed2), ("g2", c5_failed3), ("g3", c5_pending)] }

/-- The ledger exactly as the engine leaves it: the users row registered by
add_user, and an EMPTY files table, because no code path ever calls
add_file. -/
def c8_ledger : Ledger := { users := [("alice@src", aliceUser)], files := [] }

/-- One failing object followed by one succeeding object. -/
def c8_files : List FileSim :=
  [⟨"f1", .error "boom"⟩, ⟨"f2", .ok (some "d2")⟩]

/-- A destination tenant in which bob@dst.com does not exist: creating a
permission for him yields a 404, everything else succeeds. -/
def c9_remote : CreateRequest → RemoteResult :=
  fun r => if r.emailAddress == some "bob@dst.com"
           then .httpError 404 "notFound" else .ok

def c9_dm : List (String × String) := [("src.com", "dst.com")]

def c9_perm : Permission := ⟨some "user", some "writer", some "bob@src.com", none⟩

def c9_rest : List Permission :=
  [⟨some "user", some "reader", some "carol@src.com", none⟩]

/-- An opaque binary file owned by the migrating principal, shared with two
collaborators. -/
def c9_fi : FileInfo :=
  ⟨"f9", "report.bin", "application/pdf", 10, ["alice@src.com"], ["p1"],
   ⟨some "user", some "owner", some "alice@src.com", none⟩ :: c9_perm :: c9_rest⟩

/-- Download and upload succeed for the file above. -/
def c9_oc : TransferOutcomes := ⟨.error "unused", true, some "d9", true⟩

/-- A ledger-operation history exercising every operation. -/
def c10_ops : List LedgerOp :=
  [.markFileFailedOp "g1" "alice@src" "boom" "t1",
   .resetFailedOp 3,
   .addFileOp "g9" "alice@src" "new" "application/pdf" 7,
   .markFileFailedOp "g1" "alice@src" "boom2" "t2",
   .addUserOp "alice@src" "alice@dst" "t3",
   .markFileCompletedOp "g1" "alice@src" (some "d1") "t4"]

/-! Invariants used in the terminality proofs. -/

/-- A file the ledger reports completed keeps its row unchanged and never
appears in any event: no transfer is attempted for it and no mark is
written for it. -/
def CompletedStaysInv (fid : String) (v0 : Option FileRecord)
    (acc : Ledger × List Event) : Prop :=
  is_file_completed acc.1 fid = true ∧ alookup acc.1.files fid = v0 ∧
  acc.2.filter (fun e => e.fileId == fid) = []

/-- For a file id that has a row in the ledger: markObjectCompleted has been
observed at most once, and once observed the ledger reports the file
completed. -/
def AtMostOnceInv (fid : String) (acc : Ledger × List Event) : Prop :=
  (alookup acc.1.files fid).isSome ∧ countMark fid acc.2 ≤ 1 ∧
  (1 ≤ countMark fid acc.2 → is_file_completed acc.1 fid = true)

/-! Helper lemmas about lookups and folds. -/

theorem alookup_cons {β : Type} (a : String × β) (t : List (String × β))
    (k : String) :
    alookup (a :: t) k = if a.1 == k then some a.2 else alookup t k := by
  cases h : a.1 == k <;> simp [alookup, List.find?, h]

theorem alookup_map_keyval {β : Type} (l : List (String × β))
    (g : String → β → β) (k : String) :
    alookup (l.map (fun p => (p.1, g p.1 p.2))) k = (alookup l k).map (g k) := by
  induction l with
  | nil => rfl
  | cons a t ih =>
      rw [List.map_cons, alookup_cons, alookup_cons]
      cases h : a.1 == k
      · simpa [h] using ih
      · have hk : a.1 = k := by simpa using h
        simp [h, hk]

theorem alookup_updateAt {β : Type} (l : List (String × β)) (k k' : String)
    (u : β → β) :
    alookup (updateAt l k u) k' =
      if k' == k then (alookup l k').map u else alookup l k' := by
  have h := alookup_map_keyval l (fun a v => if a == k then u v else v) k'
  rw [updateAt] at *
  cases hk : k' == k
  · simpa [hk] using h
  · simp only [hk, if_true] at *
    simpa [hk] using h

theorem alookup_append {β : Type} (l₁ l₂ : List (String × β)) (k : String) :
    alookup (l₁ ++ l₂) k =
      ((alookup l₁ k).rec (alookup l₂ k) (fun v => some v) : Option β) := by
  induction l₁ with
  | nil => rfl
  | cons a t ih =>
      rw [List.cons_append, alookup_cons, alookup_cons]
      cases h : a.1 == k <;> simp [h, ih]

/-- Invariant preservation along a left fold. -/
theorem foldlInv {α σ : Type} {P : σ → Prop} (f : σ → α → σ)
    (step : ∀ s a, P s → P (f s a)) :
    ∀ (l : List α) (s : σ), P s → P (l.foldl f s) := by
  intro l
  induction l with
  | nil => exact fun s hs => hs
  | cons a t ih => exact fun s hs => ih (f s a) (step s a hs)

/-! Lookup behaviour of the ledger write operations. -/

theorem add_user_files (L : Ledger) (s d n : String) :
    (add_user L s d n).files = L.files := rfl

theorem mark_file_completed_files_lookup (L : Ledger) (fid src : String)
    (dst : Option String) (now k : String) :
    alookup (mark_file_completed L fid src dst now).files k =
      if k == fid then
        (alookup L.files k).map (fun f =>
          { f with status := "completed", dest_file_id := dst,
                   completed_time := some now, last_attempt := some now })
      else alookup L.files k := by
  simp [mark_file_completed, alookup_updateAt]

theorem mark_file_failed_files_lookup (L : Ledger) (fid src err now k : String) :
    alookup (mark_file_failed L fid src err now).files k =
      if k == fid then
        (alookup L.files k).map (fun f =>
          { f with status := "failed", error_message := some err,
                   attempt_count := f.attempt_count + 1,
                   last_attempt := some now })
      else alookup L.files k := by
  simp [mark_file_failed, alookup_updateAt]

theorem reset_failed_files_lookup (L : Ledger) (m : Nat) (k : String) :
    alookup (reset_failed_files L m).2.files k =
      (alookup L.files k).map (fun f =>
        if resetEligible m f
        then { f with status := "pending", error_message := none }
        else f) := by
  simpa using alookup_map_keyval L.files
    (fun _ v => if resetEligible m v
                then { v with status := "pending", error_message := none }
                else v) k

theorem is_file_completed_congr {L L' : Ledger} {fid : String}
    (h : alookup L'.files fid = alookup L.files fid) :
    is_file_completed L' fid = is_file_completed L fid := by
  simp [is_file_completed, h]

theorem countMark_append (fid : String) (evs1 evs2 : List Event) :
    countMark fid (evs1 ++ evs2) = countMark fid evs1 + countMark fid evs2 := by
  simp [countMark, List.filter_append]

/-! Shape of one engine-loop iteration in each of its three branches. -/

theorem processFile_skip (s n : String) (acc : Ledger × Tally × List Event)
    (g : FileSim) (hskip : is_file_completed acc.1 g.id = true) :
    processFile s n acc g =
      (acc.1, { acc.2.1 with files_skipped := acc.2.1.files_skipped + 1 },
       acc.2.2) := by
  simp [processFile, hskip]

theorem processFile_ok (s n : String) (acc : Ledger × Tally × List Event)
    (g : FileSim) (d : Option String)
    (hskip : is_file_completed acc.1 g.id = false) (ho : g.outcome = .ok d) :
    processFile s n acc g =
      (mark_file_completed acc.1 g.id s none n,
       { acc.2.1 with files_migrated := acc.2.1.files_migrated + 1 },
       acc.2.2 ++ [.transferAttempt g.id, .markCompleted g.id]) := by
  simp [processFile, hskip, ho]

theorem processFile_err (s n : String) (acc : Ledger × Tally × List Event)
    (g : FileSim) (e : String)
    (hskip : is_file_completed acc.1 g.id = false) (ho : g.outcome = .error e) :
    processFile s n acc g =
      (mark_file_failed acc.1 g.id s e n,
       { acc.2.1 with files_failed := acc.2.1.files_failed + 1 },
       acc.2.2 ++ [.transferAttempt g.id, .markFailed g.id]) := by
  simp [processFile, hskip, ho]

/-! Preservation of the terminality invariants. -/

theorem processFile_preserves_completedInv (s n fid : String)
    (v0 : Option FileRecord) (acc : Ledger × Tally × List Event) (g : FileSim)
    (h : CompletedStaysInv fid v0 (acc.1, acc.2.2)) :
    CompletedStaysInv fid v0
      ((processFile s n acc g).1, (processFile s n acc g).2.2) := by
  obtain ⟨hc, hl, he⟩ := h
  cases hskip : is_file_completed acc.1 g.id with
  | true => rw [processFile_skip s n acc g hskip]; exact ⟨hc, hl, he⟩
  | false =>
      have hg : g.id ≠ fid := by
        intro hh
        rw [hh, hc] at hskip
        cases hskip
      have hgb : (g.id == fid) = false := beq_eq_false_iff_ne.mpr hg
      have hfb : (fid == g.id) = false := beq_eq_false_iff_ne.mpr (Ne.symm hg)
      cases ho : g.outcome with
      | ok d =>
          rw [processFile_ok s n acc g d hskip ho]
          have hl' :
              alookup (mark_file_completed acc.1 g.id s none n).files fid =
                alookup acc.1.files fid := by
            rw [mark_file_completed_files_lookup]
            simp [hfb]
          refine ⟨?_, hl'.trans hl, ?_⟩
          · rw [is_file_completed_congr hl']; exact hc
          · rw [List.filter_append, he]
            simp [Event.fileId, hgb]
      | error e =>
          rw [processFile_err s n acc g e hskip ho]
          have hl' :
              alookup (mark_file_failed acc.1 g.id s e n).files fid =
                alookup acc.1.files fid := by
            rw [mark_file_failed_files_lookup]
            simp [hfb]
          refine ⟨?_, hl'.trans hl, ?_⟩
          · rw [is_file_completed_congr hl']; exact hc
          · rw [List.filter_append, he]
            simp [Event.fileId, hgb]

theorem processFile_preserves_atMostOnce (s n fid : String)
    (acc : Ledger × Tally × List Event) (g : FileSim)
    (h : AtMostOnceInv fid (acc.1, acc.2.2)) :
    AtMostOnceInv fid
      ((processFile s n acc g).1, (processFile s n acc g).2.2) := by
  obtain ⟨hs, hcnt, himp⟩ := h
  cases hskip : is_file_completed acc.1 g.id with
  | true =>
      rw [processFile_skip s n acc g hskip]
      exact ⟨hs, hcnt, himp⟩
  | false =>
      by_cases hg : g.id = fid
      · subst hg
        have hzero : countMark g.id acc.2.2 = 0 := by
          rcases Nat.eq_zero_or_pos (countMark g.id acc.2.2) with h0 | hpos
          · exact h0
          · rw [himp hpos] at hskip; cases hskip
        cases ho : g.outcome with
        | ok d =>
            rw [processFile_ok s n acc g d hskip ho]
            have hl' := mark_file_completed_files_lookup acc.1 g.id s none n g.id
            rw [BEq.refl, if_pos rfl] at hl'
            refine ⟨?_, ?_, ?_⟩
            · simp only [hl']
              simpa using hs
            · rw [countMark_append, hzero]
              simp [countMark]
            · intro _
              rcases Option.isSome_iff_exists.mp hs with ⟨f, hf⟩
              simp [is_file_completed, hl', hf]
        | error e =>
            rw [processFile_err s n acc g e hskip ho]
            have hl' := mark_file_failed_files_lookup acc.1 g.id s e n g.id
            rw [BEq.refl, if_pos rfl] at hl'
            have hcnt' :
                countMark g.id (acc.2.2 ++
                  [.transferAttempt g.id, .markFailed g.id]) = 0 := by
              rw [countMark_append, hzero]
              simp [countMark]
            refine ⟨?_, ?_, ?_⟩
            · simp only [hl']
              simpa using hs
            · rw [hcnt']; exact Nat.zero_le 1
            · intro habs; rw [hcnt'] at habs; cases habs
      · have hgb : (g.id == fid) = false := beq_eq_false_iff_ne.mpr hg
        have hfb : (fid == g.id) = false := beq_eq_false_iff_ne.mpr (Ne.symm hg)
        cases ho : g.outcome with
        | ok d =>
            rw [processFile_ok s n acc g d hskip ho]
            have hl' :
                alookup (mark_file_completed acc.1 g.id s none n).files fid =
                  alookup acc.1.files fid := by
              rw [mark_file_completed_files_lookup]
              simp [hfb]
            have hcnt' :
                countMark fid (acc.2.2 ++
                  [.transferAttempt g.id, .markCompleted g.id]) =
                  countMark fid acc.2.2 := by
              rw [countMark_append]
              simp [countMark, hg]
            refine ⟨by rw [hl']; exact hs, by rw [hcnt']; exact hcnt, ?_⟩
            · intro hone
              rw [is_file_completed_congr hl']
              exact himp (by rwa [hcnt'] at hone)
        | error e =>
            rw [processFile_err s n acc g e hskip ho]
            have hl' :
                alookup (mark_file_failed acc.1 g.id s e n).files fid =
                  alookup acc.1.files fid := by
              rw [mark_file_failed_files_lookup]
              simp [hfb]
            have hcnt' :
                countMark fid (acc.2.2 ++
                  [.transferAttempt g.id, .markFailed g.id]) =
                  countMark fid acc.2.2 := by
              rw [countMark_append]
              simp [countMark, hg]
            refine ⟨by rw [hl']; exact hs, by rw [hcnt']; exact hcnt, ?_⟩
            · intro hone
              rw [is_file_completed_congr hl']
              exact himp (by rwa [hcnt'] at hone)

theorem applySys_preserves_completedInv (fid : String)
    (v0 : Option FileRecord) (acc : Ledger × List Event) (st : SysStep)
    (h : CompletedStaysInv fid v0 acc) :
    CompletedStaysInv fid v0 (applySys acc st) := by
  cases st with
  | runUser s n fs =>
      have hloop :=
        foldlInv (P := fun x : Ledger × Tally × List Event =>
            CompletedStaysInv fid v0 (x.1, x.2.2))
          (processFile s n)
          (fun x g hx => processFile_preserves_completedInv s n fid v0 x g hx)
          fs (acc.1, ⟨0, 0, 0⟩, acc.2) h
      simpa [applySys] using hloop
  | resetFailed m =>
      obtain ⟨hc, hl, he⟩ := h
      have hl' : alookup (reset_failed_files acc.1 m).2.files fid =
          alookup acc.1.files fid := by
        rw [reset_failed_files_lookup]
        cases hx : alookup acc.1.files fid with
        | none => rfl
        | some f =>
            have hst : f.status = "completed" := by
              have h2 := hc
              simp [is_file_completed, hx] at h2
              exact h2
            have hne : resetEligible m f = false := by
              simp [resetEligible, hst]
            simp [hne]
      refine ⟨?_, ?_, ?_⟩
      · show is_file_completed (reset_failed_files acc.1 m).2 fid = true
        rw [is_file_completed_congr hl']
        exact hc
      · show alookup (reset_failed_files acc.1 m).2.files fid = v0
        exact hl'.trans hl
      · exact he
  | addUserStep s d n =>
      obtain ⟨hc, hl, he⟩ := h
      refine ⟨?_, ?_, ?_⟩
      · simpa [applySys, is_file_completed, alookup, add_user_files] using hc
      · simpa [applySys, add_user_files] using hl
      · simpa [applySys] using he

theorem applySys_preserves_atMostOnce (fid : String)
    (acc : Ledger × List Event) (st : SysStep)
    (h : AtMostOnceInv fid acc) : AtMostOnceInv fid (applySys acc st) := by
  cases st with
  | runUser s n fs =>
      have hloop :=
        foldlInv (P := fun x : Ledger × Tally × List Event =>
            AtMostOnceInv fid (x.1, x.2.2))
          (processFile s n)
          (fun x g hx => processFile_preserves_atMostOnce s n fid x g hx)
          fs (acc.1, ⟨0, 0, 0⟩, acc.2) h
      simpa [applySys] using hloop
  | resetFailed m =>
      obtain ⟨hs, hcnt, himp⟩ := h
      have hsome : (alookup (reset_failed_files acc.1 m).2.files fid).isSome = true := by
        rw [reset_failed_files_lookup]
        simpa using hs
      refine ⟨by simpa [applySys] using hsome, by simpa [applySys] using hcnt, ?_⟩
      · intro hone
        have hone2 : 1 ≤ countMark fid acc.2 := by simpa [applySys] using hone
        have hc := himp hone2
        have hl' : alookup (reset_failed_files acc.1 m).2.files fid =
            alookup acc.1.files fid := by
          rw [reset_failed_files_lookup]
          cases hx : alookup acc.1.files fid with
          | none => rfl
          | some f =>
              have hst : f.status = "completed" := by
                have h2 := hc
                simp [is_file_completed, hx] at h2
                exact h2
              have hne : resetEligible m f = false := by
                simp [resetEligible, hst]
              simp [hne]
        show is_file_completed (reset_failed_files acc.1 m).2 fid = true
        rw [is_file_completed_congr hl']
        exact hc
  | addUserStep s d n =>
      obtain ⟨hs, hcnt, himp⟩ := h
      refine ⟨?_, ?_, ?_⟩
      · simpa [applySys, add_user_files] using hs
      · simpa [applySys] using hcnt
      · intro hone
        have := himp (by simpa [applySys] using hone)
        simpa [applySys, is_file_completed, add_user_files] using this

/-- No single StateManager operation ever decreases the attempt count of an
existing file row (and none deletes a file row). -/
theorem applyOp_attempt_monotone (op : LedgerOp) (L : Ledger) (fid : String)
    (f : FileRecord) (h : alookup L.files fid = some f) :
    ∃ f', alookup (applyOp L op).files fid = some f' ∧
      f.attempt_count ≤ f'.attempt_count := by
  cases op with
  | addUserOp s d n =>
      exact ⟨f, by simpa [applyOp, add_user_files] using h, Nat.le_refl _⟩
  | updateUserStatusOp s st n =>
      exact ⟨f, by simpa [applyOp, update_user_status] using h, Nat.le_refl _⟩
  | markUserCompletedOp s n =>
      exact ⟨f, by simpa [applyOp, mark_user_completed] using h, Nat.le_refl _⟩
  | addFileOp fid2 s fn mt sz =>
      refine ⟨f, ?_, Nat.le_refl _⟩
      by_cases hx : (alookup L.files fid2).isSome
      · simpa [applyOp, add_file, hx] using h
      · show alookup (add_file L fid2 s fn mt sz).files fid = some f
        rw [add_file, if_neg hx]
        simp [alookup_append, h]
  | markFileCompletedOp fid2 s dst n =>
      have hl := mark_file_completed_files_lookup L fid2 s dst n fid
      by_cases hk : fid = fid2
      · subst hk
        rw [BEq.refl, if_pos rfl, h] at hl
        exact ⟨_, hl, Nat.le_refl _⟩
      · rw [beq_eq_false_iff_ne.mpr hk] at hl
        simp only [Bool.false_eq_true, if_false] at hl
        exact ⟨f, by simpa [applyOp] using hl.trans h, Nat.le_refl _⟩
  | markFileFailedOp fid2 s e n =>
      have hl := mark_file_failed_files_lookup L fid2 s e n fid
      by_cases hk : fid = fid2
      · subst hk
        rw [BEq.refl, if_pos rfl, h] at hl
        exact ⟨_, hl, Nat.le_succ _⟩
      · rw [beq_eq_false_iff_ne.mpr hk] at hl
        simp only [Bool.false_eq_true, if_false] at hl
        exact ⟨f, by simpa [applyOp] using hl.trans h, Nat.le_refl _⟩
  | resetFailedOp m =>
      have hl := reset_failed_files_lookup L m fid
      rw [h] at hl
      cases he : resetEligible m f with
      | true =>
          rw [Option.map_some', if_pos he] at hl
          exact ⟨_, hl, Nat.le_refl _⟩
      | false =>
          rw [Option.map_some', if_neg (by simp [he])] at hl
          exact ⟨f, hl, Nat.le_refl _⟩

/-- Folding the permission loop over any list: the create calls issued are
exactly the translated non-owner entries, in order, and the skipped tally
grows by exactly the number of owner entries. -/
theorem permLoop_calls_skipped (remote : CreateRequest → RemoteResult)
    (dm : List (String × String)) :
    ∀ (ps : List Permission) (r0 : PermResult),
      (ps.foldl (processPermission remote dm) r0).calls =
        r0.calls ++ (ps.filter (fun p => !(p.role == some "owner"))).map
          (requestFor dm) ∧
      (ps.foldl (processPermission remote dm) r0).skipped =
        r0.skipped + (ps.filter (fun p => p.role == some "owner")).length := by
  intro ps
  induction ps with
  | nil => intro r0; simp
  | cons p rest ih =>
      intro r0
      rw [List.foldl_cons]
      obtain ⟨hc, hs⟩ := ih (processPermission remote dm r0 p)
      cases hro : (p.role == some "owner") with
      | true =>
          have hcalls : (processPermission remote dm r0 p).calls = r0.calls := by
            simp [processPermission, hro]
          have hskip :
              (processPermission remote dm r0 p).skipped = r0.skipped + 1 := by
            simp [processPermission, hro]
          constructor
          · rw [hc, hcalls]
            simp [List.filter_cons, hro]
          · rw [hs, hskip]
            simp [List.filter_cons, hro]
            omega
      | false =>
          have hcalls : (processPermission remote dm r0 p).calls =
              r0.calls ++ [requestFor dm p] := by
            cases hcr : (create_permission remote (requestFor dm p)).1 <;>
              simp [processPermission, hro, hcr]
          have hskip :
              (processPermission remote dm r0 p).skipped = r0.skipped := by
            cases hcr : (create_permission remote (requestFor dm p)).1 <;>
              simp [processPermission, hro, hcr]
          constructor
          · rw [hc, hcalls]
            simp [List.filter_cons, hro]
          · rw [hs, hskip]
            simp [List.filter_cons, hro]

/-- Every permission entry produces exactly one detail row, so the whole
grant list is always processed to the end. -/
theorem permLoop_details_length (remote : CreateRequest → RemoteResult)
    (dm : List (String × String)) :
    ∀ (ps : List Permission) (r0 : PermResult),
      (ps.foldl (processPermission remote dm) r0).details.length =
        r0.details.length + ps.length := by
  have hstep : ∀ (r0 : PermResult) (p : Permission),
      (processPermission remote dm r0 p).details.length =
        r0.details.length + 1 := by
    intro r0 p
    cases hro : (p.role == some "owner") with
    | true => simp [processPermission, hro]
    | false =>
        cases hcr : (create_permission remote (requestFor dm p)).1 <;>
          simp [processPermission, hro, hcr]
  intro ps
  induction ps with
  | nil => intro r0; simp
  | cons p rest ih =>
      intro r0
      rw [List.foldl_cons, ih (processPermission remote dm r0 p), hstep]
      simp only [List.length_cons]
      omega

/-! Claim theorems. -/

/-- C1 (code bug): the claim says addPrincipal is a non-destructive upsert
that leaves an existing record untouched.  add_user is INSERT OR REPLACE,
so re-adding a completed principal replaces the row: status returns to
pending, the counters fall back to the column defaults and the timestamps
are refreshed; only the single-row-per-identity half of the claim holds
(primary key).  Evaluated here at a completed record. -/
theorem addUser_replaces_completed_record :
    ((alookup c1_ledger.users "alice@src").map (fun u => u.status) =
        some "completed") ∧
    ((alookup (add_user c1_ledger "alice@src" "alice@dst" "t2").users
        "alice@src").map (fun u =>
          (u.status, u.files_completed, u.files_total, u.end_time)) =
        some ("pending", 0, 0, none)) ∧
    (add_user c1_ledger "alice@src" "alice@dst" "t2").users.map
        (fun p => p.1) = ["alice@src"] := by
  decide

/-- C3 (code bug): the claim says the parent entry is in the mapping before
any child creation call is issued.  build_folder_structure sorts by the
NUMBER of parent ids, not by depth, and in the Drive data model every
folder has exactly one parent id; the sort is stable, so a child listed
before its parent keeps its position and its creation call is issued with
dest_parent = none although its parent is part of the folder set: the
child is created at the destination root. -/
theorem folder_child_created_before_parent :
    (build_folder_structure c3_create [c3_child, c3_parent]).2.head? =
      some ⟨"fC", "Sub", some "fP", none⟩ ∧
    ([c3_child, c3_parent].map (fun f => f.id)).contains "fP" = true ∧
    alookup (build_folder_structure c3_create [c3_child, c3_parent]).1 "fC" =
      some "d_Sub" := by
  decide

/-- C4 counterexample: validate_migration stamps datetime.now() into the
report, so two invocations on equal snapshots return different
DiscrepancyReports whenever the clock values differ: the function is not
pure in its snapshot inputs. -/
theorem validate_report_depends_on_clock :
    validate_migration "t1" c4_src c4_dst [] ≠
    validate_migration "t2" c4_src c4_dst [] := by
  decide

/-- C4 amended: apart from the embedded capture timestamp the report is a
pure function of the two snapshots and the file mapping: erasing the
timestamp field makes any two invocations with equal snapshot inputs
identical. -/
theorem validate_deterministic_modulo_timestamp :
    ∀ (now1 now2 : String) (source dest : DriveStructure)
      (fm : List (String × String)),
      eraseTimestamp (validate_migration now1 source dest fm) =
      eraseTimestamp (validate_migration now2 source dest fm) := by
  intro n1 n2 src dst fm
  rfl

/-- C5: reset_failed_files moves back to pending, clearing the error text,
exactly the rows that are failed with attempt count strictly below
maxAttempts, leaves every other row unchanged (in particular failed rows
at or above the threshold stay failed), and returns the number of rows
changed; with maxAttempts = 3 a failed row with attempt count 3 is kept
and a failed row with attempt count 2 is reset. -/
theorem resetFailedFiles_resets_exactly_below_threshold :
    (∀ (L : Ledger) (maxAttempts : Nat) (fid : String),
        alookup (reset_failed_files L maxAttempts).2.files fid =
          (alookup L.files fid).map (fun f =>
            if f.status == "failed" && decide (f.attempt_count < maxAttempts)
            then { f with status := "pending", error_message := none }
            else f)) ∧
    (∀ (L : Ledger) (maxAttempts : Nat),
        (reset_failed_files L maxAttempts).1 =
          (L.files.filter (fun p =>
            p.2.status == "failed" &&
            decide (p.2.attempt_count < maxAttempts))).length) ∧
    (alookup (reset_failed_files c5_ledger 3).2.files "g1" =
        some { c5_failed2 with status := "pending", error_message := none }) ∧
    (alookup (reset_failed_files c5_ledger 3).2.files "g2" = some c5_failed3) ∧
    (reset_failed_files c5_ledger 3).1 = 1 := by
  refine ⟨?_, ?_, by decide, by decide, by decide⟩
  · intro L m fid
    rw [reset_failed_files_lookup]
    rfl
  · intro L m
    rfl

/-- C2: completed is terminal.  For any starting ledger and any history of
runs, retry resets and principal re-registrations: an object id the ledger
reports completed generates no event at all (no remote transfer attempt,
no mark) and its ObjectRecord is never written again; and for any object
id that has a row in the ledger, markObjectCompleted is observed at most
once across the whole history (the claim premise, a ledger status of
completed, implies such a row exists). -/
theorem completed_objects_are_terminal :
    (∀ (L : Ledger) (steps : List SysStep) (fid : String),
        is_file_completed L fid = true →
          (execTrace L steps).2.filter (fun e => e.fileId == fid) = [] ∧
          alookup (execTrace L steps).1.files fid = alookup L.files fid) ∧
    (∀ (L : Ledger) (steps : List SysStep) (fid : String),
        (alookup L.files fid).isSome = true →
          countMark fid (execTrace L steps).2 ≤ 1) := by
  constructor
  · intro L steps fid hc
    have h0 : CompletedStaysInv fid (alookup L.files fid) (L, []) :=
      ⟨hc, rfl, rfl⟩
    have hend := foldlInv applySys
      (fun x st hx => applySys_preserves_completedInv fid _ x st hx)
      steps (L, []) h0
    exact ⟨hend.2.2, hend.2.1⟩
  · intro L steps fid hsome
    have h0 : AtMostOnceInv fid (L, []) := by
      refine ⟨hsome, ?_, ?_⟩
      · simp [countMark]
      · intro h1
        simp [countMark] at h1
    exact (foldlInv applySys
      (fun x st hx => applySys_preserves_atMostOnce fid x st hx)
      steps (L, []) h0).2.1

/-- C2 witness: a ledger holding a completed object f1, run twice with a
reset and a principal re-registration in between. -/
theorem completed_objects_are_terminal_witness :
    ((execTrace c2_ledger c2_steps).2.filter (fun e => e.fileId == "f1") = [] ∧
     alookup (execTrace c2_ledger c2_steps).1.files "f1" =
       alookup c2_ledger.files "f1") ∧
    countMark "f1" (execTrace c2_ledger c2_steps).2 ≤ 1 :=
  ⟨completed_objects_are_terminal.1 c2_ledger c2_steps "f1" (by decide),
   completed_objects_are_terminal.2 c2_ledger c2_steps "f1" (by decide)⟩

/-- C8 (code bug): the claim says a per-object failure is recorded as a
ledger failed mark with the attempt count incremented by one.  The engine
does catch the failure and continue (the tally shows both files were
processed and the principal row is not failed), but nothing is ever
recorded for the object: no code path calls add_file, so the files table
the engine runs against is empty and the UPDATE inside mark_file_failed
matches no row, as the last conjunct shows directly. -/
theorem object_failure_not_recorded :
    (migrateLoop "alice@src" "t1" c8_ledger c8_files).1.files = [] ∧
    (migrateLoop "alice@src" "t1" c8_ledger c8_files).2.1 = ⟨1, 1, 0⟩ ∧
    ((alookup (migrateLoop "alice@src" "t1" c8_ledger c8_files).1.users
        "alice@src").map (fun u => u.status) = some "pending") ∧
    alookup (mark_file_failed c8_ledger "f1" "alice@src" "boom" "t1").files
      "f1" = none := by
  decide

/-- C10: across any sequence of StateManager operations an existing file
row keeps a monotonically non-decreasing attempt count; mark_file_failed
sets status failed, records the error and increments the attempt count by
exactly one; and reset_failed_files never changes any attempt count. -/
theorem attempt_count_never_decreases :
    (∀ (ops : List LedgerOp) (L : Ledger) (fid : String) (f : FileRecord),
        alookup L.files fid = some f →
          ∃ f', alookup (ops.foldl applyOp L).files fid = some f' ∧
            f.attempt_count ≤ f'.attempt_count) ∧
    (∀ (L : Ledger) (fid src err now : String) (f : FileRecord),
        alookup L.files fid = some f →
          alookup (mark_file_failed L fid src err now).files fid =
            some { f with status := "failed", error_message := some err,
                          attempt_count := f.attempt_count + 1,
                          last_attempt := some now }) ∧
    (∀ (L : Ledger) (m : Nat) (fid : String) (f : FileRecord),
        alookup L.files fid = some f →
          (alookup (reset_failed_files L m).2.files fid).map
              (fun g => g.attempt_count) = some f.attempt_count) := by
  refine ⟨?_, ?_, ?_⟩
  · intro ops
    induction ops with
    | nil => exact fun L fid f h => ⟨f, h, Nat.le_refl _⟩
    | cons op rest ih =>
        intro L fid f h
        obtain ⟨f1, h1, hle1⟩ := applyOp_attempt_monotone op L fid f h
        obtain ⟨f2, h2, hle2⟩ := ih (applyOp L op) fid f1 h1
        exact ⟨f2, h2, Nat.le_trans hle1 hle2⟩
  · intro L fid src err now f h
    have hl := mark_file_failed_files_lookup L fid src err now fid
    rw [BEq.refl, if_pos rfl, h] at hl
    exact hl
  · intro L m fid f h
    rw [reset_failed_files_lookup, h]
    cases he : resetEligible m f <;> simp [he]

/-- C10 witness: the operation history c10_ops applied to a ledger holding
a failed row with attempt count 2. -/
theorem attempt_count_never_decreases_witness :
    (∃ f', alookup (c10_ops.foldl applyOp c5_ledger).files "g1" = some f' ∧
        c5_failed2.attempt_count ≤ f'.attempt_count) ∧
    (alookup (mark_file_failed c5_ledger "g1" "alice@src" "x" "t9").files
        "g1" =
      some { c5_failed2 with
               status := "failed"
               error_message := some "x"
               attempt_count := c5_failed2.attempt_count + 1
               last_attempt := some "t9" }) ∧
    ((alookup (reset_failed_files c5_ledger 3).2.files "g1").map
        (fun g => g.attempt_count) = some c5_failed2.attempt_count) :=
  ⟨attempt_count_never_decreases.1 c10_ops c5_ledger "g1" c5_failed2
      (by decide),
   attempt_count_never_decreases.2.1 c5_ledger "g1" "alice@src" "x" "t9"
      c5_failed2 (by decide),
   attempt_count_never_decreases.2.2 c5_ledger 3 "g1" c5_failed2 (by decide)⟩

/-- C6: for every access-entry list, every mapping and every remote
behaviour, the create-permission calls migrate_permissions issues are
exactly the translated non-owner entries in their original order, so an
owner entry at any position never produces a call, and the skipped tally
equals the number of owner entries. -/
theorem owner_entries_always_skipped :
    ∀ (remote : CreateRequest → RemoteResult) (dm : List (String × String))
      (ps : List Permission),
      (migrate_permissions remote dm ps).calls =
        (ps.filter (fun p => !(p.role == some "owner"))).map (requestFor dm) ∧
      (migrate_permissions remote dm ps).skipped =
        (ps.filter (fun p => p.role == some "owner")).length := by
  intro remote dm ps
  have h := permLoop_calls_skipped remote dm ps ⟨ps.length, 0, 0, 0, [], []⟩
  simpa [migrate_permissions] using h

/-- C7: translation rewrites only the domain suffix.  When the identity
splits as local-part and domain at the first at-sign and the domain has a
mapping entry, the result is the local part joined to the mapped
destination domain; an unmapped domain and an identity without an at-sign
pass through unchanged; the request built for an entry preserves its type
and role; and concretely a@source.com maps to a@dest.com under the map
source.com to dest.com. -/
theorem email_domain_rewrite :
    (∀ (dm : List (String × String)) (email lp d : String)
        (pr : String × String),
        splitEmailAtFirst email = some (lp, d) →
        dm.find? (fun q => q.1 == d) = some pr →
        map_email_to_dest_domain dm email = lp ++ "@" ++ pr.2) ∧
    (∀ (dm : List (String × String)) (email lp d : String),
        splitEmailAtFirst email = some (lp, d) →
        dm.find? (fun q => q.1 == d) = none →
        map_email_to_dest_domain dm email = email) ∧
    (∀ (dm : List (String × String)) (email : String),
        splitEmailAtFirst email = none →
        map_email_to_dest_domain dm email = email) ∧
    (∀ (dm : List (String × String)) (p : Permission),
        (requestFor dm p).perm_type = p.type ∧
        (requestFor dm p).role = p.role) ∧
    map_email_to_dest_domain [("source.com", "dest.com")] "a@source.com" =
      "a@dest.com" := by
  refine ⟨?_, ?_, ?_, ?_, by decide⟩
  · intro dm email lp d pr h1 h2
    simp [map_email_to_dest_domain, h1, h2]
  · intro dm email lp d h1 h2
    simp [map_email_to_dest_domain, h1, h2]
  · intro dm email h1
    simp [map_email_to_dest_domain, h1]
  · intro dm p
    exact ⟨rfl, rfl⟩

/-- C7 witness: the three translation cases at concrete identities. -/
theorem email_domain_rewrite_witness :
    map_email_to_dest_domain [("source.com", "dest.com")] "a@source.com" =
      "a" ++ "@" ++ "dest.com" ∧
    map_email_to_dest_domain [("source.com", "dest.com")] "b@other.org" =
      "b@other.org" ∧
    map_email_to_dest_domain [("source.com", "dest.com")] "noatsign" =
      "noatsign" :=
  ⟨email_domain_rewrite.1 [("source.com", "dest.com")] "a@source.com" "a"
      "source.com" ("source.com", "dest.com") (by decide) (by decide),
   email_domain_rewrite.2.1 [("source.com", "dest.com")] "b@other.org" "b"
      "other.org" (by decide) (by decide),
   email_domain_rewrite.2.2.1 [("source.com", "dest.com")] "noatsign"
      (by decide)⟩

/-- C9: a 404 on applying one translated entry is recoverable.  The failing
entry is tallied as failed with the grantee-not-found message and the loop
goes on folding over the remaining entries (first conjunct gives the exact
result of the failing step, second conjunct shows every entry of the grant
list yields a detail row); and the owning object transfer result (success,
error, destination id) does not depend on the permission-creation
behaviour at all. -/
theorem grantee_not_found_is_recoverable :
    (∀ (remote : CreateRequest → RemoteResult) (dm : List (String × String))
        (r0 : PermResult) (p : Permission) (msg : String),
        (p.role == some "owner") = false →
        remote (requestFor dm p) = .httpError 404 msg →
        processPermission remote dm r0 p =
          { r0 with
            failed := r0.failed + 1
            calls := r0.calls ++ [requestFor dm p]
            details := r0.details ++
              [⟨pyOr (requestFor dm p).emailAddress p.domain, p.role, p.type,
                "failed", none,
                some "User not found in destination domain"⟩] }) ∧
    (∀ (remote : CreateRequest → RemoteResult) (dm : List (String × String))
        (ps : List Permission),
        (migrate_permissions remote dm ps).details.length = ps.length) ∧
    (∀ (mb : Nat) (u : Option String) (dm fm : List (String × String))
        (oc : TransferOutcomes) (r1 r2 : CreateRequest → RemoteResult)
        (fi : FileInfo),
        (migrate_file_with_permissions mb u dm fm oc r1 fi).success =
          (migrate_file_with_permissions mb u dm fm oc r2 fi).success ∧
        (migrate_file_with_permissions mb u dm fm oc r1 fi).error =
          (migrate_file_with_permissions mb u dm fm oc r2 fi).error ∧
        (migrate_file_with_permissions mb u dm fm oc r1 fi).dest_file_id =
          (migrate_file_with_permissions mb u dm fm oc r2 fi).dest_file_id) := by
  refine ⟨?_, ?_, ?_⟩
  · intro remote dm r0 p msg hro h404
    simp [processPermission, hro, create_permission, h404]
  · intro remote dm ps
    simpa [migrate_permissions] using
      permLoop_details_length remote dm ps ⟨ps.length, 0, 0, 0, [], []⟩
  · intro mb u dm fm oc r1 r2 fi
    cases h : transfer_stage mb u fm oc fi <;>
      simp [migrate_file_with_permissions, h]

/-- C9 witness: a binary file owned by the principal whose grant list holds
an owner entry, a writer entry whose translated grantee is missing in the
destination (404), and a reader entry; download and upload succeed. -/
theorem grantee_not_found_is_recoverable_witness :
    (processPermission c9_remote c9_dm ⟨3, 0, 0, 0, [], []⟩ c9_perm).failed =
      1 ∧
    (migrate_permissions c9_remote c9_dm c9_fi.permissions).details.length =
      3 ∧
    (migrate_file_with_permissions 100 (some "alice@src.com") c9_dm [] c9_oc
        c9_remote c9_fi).success =
      (migrate_file_with_permissions 100 (some "alice@src.com") c9_dm [] c9_oc
        (fun _ => .ok) c9_fi).success := by
  refine ⟨?_, ?_, ?_⟩
  · rw [grantee_not_found_is_recoverable.1 c9_remote c9_dm
        ⟨3, 0, 0, 0, [], []⟩ c9_perm "notFound" (by decide) (by decide)]
  · rw [grantee_not_found_is_recoverable.2.1 c9_remote c9_dm
        c9_fi.permissions]
    decide
  · exact (grantee_not_found_is_recoverable.2.2 100 (some "alice@src.com")
      c9_dm [] c9_oc c9_remote (fun _ => .ok) c9_fi).1

end DriveMigration
